import Mathlib

/-!
# Verification of the job-hunt reconciliation engine

A shallow embedding of the spreadsheet-driven resume/cover-letter
reconciliation engine:

* `read_excel_from_drive` — the spreadsheet adapter's row-ingestion
  (`google_drive_service.py`),
* `process_drive_excel` / `process_single_job` — the reconciliation cycle
  (`google_drive_monitor_service.py`),
* `update_excel_in_drive` — the read-modify-write write-back
  (`google_drive_service.py`),
* `create_google_doc` body construction and the Google-Docs `insertText`
  semantics,
* `generate_unique_id` (`excel_sync_service.py`).

External collaborators (HTTP scraping, the generative backend, the Drive
API) are modelled as explicit oracle inputs; everything the repository
itself computes is translated from the source.
-/

namespace JobHunt

/-- Python `needle in hay` (substring containment) on strings. -/
def containsSub (hay needle : String) : Bool :=
  hay.toList.tails.any (fun t => needle.toList.isPrefixOf t)

/-! Character-list implementations of the Python string primitives the
source uses (`.lower()`, `.strip()`, slicing).  The cell values handled
here are ASCII; working on `toList` keeps every definition reducible by
evaluation. -/

/-- ASCII lower-casing of one character. -/
def pyLowerChar (c : Char) : Char :=
  if 'A' ≤ c && c ≤ 'Z' then Char.ofNat (c.toNat + 32) else c

/-- Python `s.lower()`. -/
def pyLower (s : String) : String := ⟨s.toList.map pyLowerChar⟩

/-- Python whitespace for `str.strip()`. -/
def pySpace (c : Char) : Bool :=
  c = ' ' || c = '\t' || c = '\n' || c = '\r' || c = '\x0b' || c = '\x0c'

/-- Python `s.strip()`. -/
def pyStrip (s : String) : String :=
  ⟨((s.toList.dropWhile pySpace).reverse.dropWhile pySpace).reverse⟩

/-- Python `s[:n]`. -/
def pyTake (s : String) (n : Nat) : String := ⟨s.toList.take n⟩

/-! ## Spreadsheet cells

A cell read by pandas is either a value (`some s`) or NaN (`none`).
The adapter fills missing canonical columns with default strings before the
row loop, so every `SheetRow` here carries all canonical columns; a sheet
missing a column is modelled by putting the documented default in every
row of that column. -/

/-- `str(x)` as pandas/Python applies it to a possibly-NaN cell:
`str(nan)` is the string `"nan"`. -/
def cellStr : Option String → String
  | none => "nan"
  | some s => s

/-- `str(x).strip() if not pd.isna(x) else ''`. -/
def trimCell : Option String → String
  | none => ""
  | some s => pyStrip s

/-- `str(x) if not pd.isna(x) else ''`. -/
def rawCell : Option String → String
  | none => ""
  | some s => s

/-- `str(x).lower() in ['yes', 'true', '1', 'y']` — the adapter's
boolean-cell parser (no NaN guard in the source: `str(nan)` is `"nan"`,
which parses to `false`). -/
def parseCellBool (c : Option String) : Bool :=
  let s := pyLower (cellStr c)
  s = "yes" || s = "true" || s = "1" || s = "y"

/-- `str(row['unique_id']) if not pd.isna(...) and str(...).strip() else ''`. -/
def uniqueIdCell : Option String → String
  | none => ""
  | some s => if pyStrip s = "" then "" else s

/-- One raw spreadsheet data row, after column normalization and
default-filling, as seen by `read_excel_from_drive`'s row loop. -/
structure SheetRow where
  unique_id : Option String := some ""
  job_url : Option String := some ""
  job_description : Option String := some ""
  additional_instructions : Option String := some ""
  generate_resume : Option String := some "yes"
  generate_cover : Option String := some "yes"
  generate_new_resume : Option String := some "yes"
  resume_generated : Option String := some "no"
  cover_letter_generated : Option String := some "no"
  company_name : Option String := some ""
  deriving Repr, DecidableEq

/-- The dictionary `read_excel_from_drive` builds per kept row.
Boolean-like cells are parsed to `Bool` HERE, in the adapter. -/
structure JobData where
  unique_id : String
  job_url : String
  job_description : String
  additional_instructions : String
  generate_resume : Bool
  generate_cover_letter : Bool
  generate_new_resume : Bool
  resume_generated : Bool
  cover_letter_generated : Bool
  company_name : String
  excel_row_index : Nat
  deriving Repr, DecidableEq

/-- A row is kept iff `job_url` or `job_description` is nonempty after
trimming (NaN reads as empty). -/
def rowIncluded (r : SheetRow) : Bool :=
  !(trimCell r.job_url = "" && trimCell r.job_description = "")

/-- The dictionary built for the row at zero-based dataframe index `idx`
(`excel_row_index` is `int(idx) + 2`). -/
def rowToJobData (idx : Nat) (r : SheetRow) : JobData :=
  { unique_id := uniqueIdCell r.unique_id
    job_url := trimCell r.job_url
    job_description := trimCell r.job_description
    additional_instructions := rawCell r.additional_instructions
    generate_resume := parseCellBool r.generate_resume
    generate_cover_letter := parseCellBool r.generate_cover
    generate_new_resume := parseCellBool r.generate_new_resume
    resume_generated := parseCellBool r.resume_generated
    cover_letter_generated := parseCellBool r.cover_letter_generated
    company_name := rawCell r.company_name
    excel_row_index := idx + 2 }

/-- The row loop of `read_excel_from_drive`, carrying the running
dataframe index `i`: skip a row iff both `job_url` and `job_description`
trim to empty, otherwise emit its dictionary. -/
def readRowsFrom (i : Nat) : List SheetRow → List JobData
  | [] => []
  | r :: rest =>
      if rowIncluded r then rowToJobData i r :: readRowsFrom (i + 1) rest
      else readRowsFrom (i + 1) rest

/-- `read_excel_from_drive`: the list of job dictionaries produced from the
normalized, default-filled sheet. -/
def read_excel_from_drive (rows : List SheetRow) : List JobData :=
  readRowsFrom 0 rows

/-! ## Local store entities (`models.py`) -/

/-- `JobApplication.status` choices. -/
inductive Status where
  | pending
  | processing
  | completed
  | failed
  deriving Repr, DecidableEq

/-- A persisted `JobApplication` row.  `id` is the database primary key;
`user_resume` the foreign key of the resume it belongs to.  Defaults are
the model-field defaults. -/
structure JobApplication where
  id : Nat
  unique_id : String := ""
  job_url : String := ""
  job_description : String := ""
  additional_instructions : String := ""
  company_name : String := ""
  generate_resume : Bool := true
  generate_cover_letter : Bool := true
  generate_new_resume : Bool := true
  resume_generated : Bool := false
  cover_letter_generated : Bool := false
  excel_row_index : Option Nat := none
  user_resume : Nat := 0
  status : Status := .pending
  deriving Repr, DecidableEq

/-- A persisted `GeneratedResume` row (append-only). -/
structure GeneratedResume where
  job_application : Nat
  content : String
  recommendations : String := ""
  google_doc_id : String := ""
  google_doc_url : String := ""
  company_name : String := ""
  deriving Repr, DecidableEq

/-- A persisted `GeneratedCoverLetter` row (append-only). -/
structure GeneratedCoverLetter where
  job_application : Nat
  content : String
  google_doc_id : String := ""
  google_doc_url : String := ""
  deriving Repr, DecidableEq

/-- The per-spreadsheet `GoogleDriveConfig` policy toggles consumed by the
engine. -/
structure DriveConfig where
  excel_file_id : String := ""
  output_folder_id : String := ""
  generate_new_resume : Bool := true
  generate_recommendations : Bool := true
  always_generate_cover_letter : Bool := true
  deriving Repr, DecidableEq

/-! ## External collaborators, as oracles

The scraper returns text or a failure-marker string (never raises); the
AI wrappers return a success flag; the bare `generate_content` call and
the Drive/Docs API calls can raise, modelled with `Except`. -/

/-- Result dictionary of `AIResumeGeneratorService.generate_cover_letter`. -/
structure GenResult where
  success : Bool
  content : String
  deriving Repr, DecidableEq

/-- Result dictionary of `AIResumeGeneratorService.generate_resume`. -/
structure ResumeGenResult where
  success : Bool
  content : String
  recommendations : String
  deriving Repr, DecidableEq

/-- The `doc_id`/`doc_url` pair a successful Docs API call returns. -/
structure DocRef where
  doc_id : String
  doc_url : String
  deriving Repr, DecidableEq

/-- Oracle bundle for every call that leaves the repository's own code. -/
structure Externals where
  /-- `JobScraperService.extract_job_description` (best-effort, returns
  marker text on failure). -/
  scrape : String → String
  /-- `ai_service.generate_cover_letter(job_app, resume, instructions)`. -/
  generate_cover_letter : JobApplication → String → String → GenResult
  /-- `ai_service.generate_resume(job_app, resume, instructions)`. -/
  generate_resume : JobApplication → String → String → ResumeGenResult
  /-- Bare `gemini_service.generate_content(prompt)`; raises on failure. -/
  generate_content : String → Except String String
  /-- `GoogleDriveService.extract_company_name(description, url)` (regex
  helper; opaque here — no claim concerns its output). -/
  extract_company_name : String → String → String
  /-- Docs API outcome of `create_google_doc(folder_id, title, ...)`. -/
  create_doc : String → String → Except String DocRef
  /-- Docs API outcome of `update_google_doc(doc_id, ...)`. -/
  update_doc : String → Except String DocRef
  /-- Drive API outcome of `update_excel_in_drive(row_index,
  resume_generated, cover_letter_generated, recommendations?,
  company_name, google_doc_url?)`. -/
  update_excel : Nat → Bool → Bool → Option String → String → Option String →
    Except String Unit

/-! ## Description backfill (`_process_single_job`, first block)

`job_app.additional_instructions = ""` is an in-memory assignment only:
`update_job_description` fetches a fresh row by id and saves just the new
description, and `refresh_from_db` then reloads the in-memory object from
that row — so the cleared instructions never reach the database and are
immediately restored in memory.  The net effect on both copies is exactly
a `job_description` update. -/

/-- The scraped-or-salvaged description the backfill block persists. -/
def backfillText (ext : Externals) (j : JobApplication) : String :=
  let jd0 := ext.scrape j.job_url
  if (containsSub jd0 "Unable to extract" || containsSub jd0 "blocked the request" ||
      containsSub jd0 "Error" || decide (jd0.length < 100)) &&
     (!(j.additional_instructions = "") && decide (j.additional_instructions.length > 100)) then
    "Job Description (from user input):\n\n" ++ j.additional_instructions
  else jd0

/-- State of the job record (both the in-memory copy and the database row)
after the `if not job_app.job_description` block. -/
def backfillDescription (ext : Externals) (j : JobApplication) : JobApplication :=
  if j.job_description = "" then { j with job_description := backfillText ext j }
  else j

/-! ## Google Docs body construction

`create_google_doc` and `update_google_doc` build a `batchUpdate` request
list; the Docs API applies the requests in order.  A document body is
modelled as the string of its text, 1-based: `insertText` at index `i`
inserts before the `i`-th character, `deleteContentRange` removes the
half-open 1-based range. -/

/-- One Docs `batchUpdate` request. -/
inductive DocRequest where
  | insertText (index : Nat) (text : String)
  | deleteContentRange (startIndex endIndex : Nat)
  deriving Repr, DecidableEq

/-- Docs API semantics of a single request on a body. -/
def applyDocRequest (body : String) : DocRequest → String
  | .insertText i t =>
      ⟨body.toList.take (i - 1) ++ t.toList ++ body.toList.drop (i - 1)⟩
  | .deleteContentRange s e =>
      ⟨body.toList.take (s - 1) ++ body.toList.drop (e - 1)⟩

/-- Docs API semantics of a request list (applied in order). -/
def applyDocRequests (body : String) (reqs : List DocRequest) : String :=
  reqs.foldl applyDocRequest body

/-- The three `insertText` requests both `create_google_doc` and
`update_google_doc` issue, in source order — each targets index 1. -/
def sectionInsertRequests (resume_content cover_letter_content : String) :
    List DocRequest :=
  [ .insertText 1 ("COVER LETTER\n\n" ++ cover_letter_content ++ "\n\n"),
    .insertText 1 "\n--- PAGE BREAK ---\n\n",
    .insertText 1 ("RESUME\n\n" ++ resume_content) ]

/-- Body of a document freshly created by `create_google_doc` (the new
document starts empty). -/
def create_google_doc_body (resume_content cover_letter_content : String) : String :=
  applyDocRequests "" (sectionInsertRequests resume_content cover_letter_content)

/-- Body after `update_google_doc` on a document whose current body is
`prev` (its `endIndex` is `prev.length + 1`): delete the range
`1 .. endIndex - 1` when `endIndex > 2`, then the same three inserts. -/
def update_google_doc_body (prev resume_content cover_letter_content : String) : String :=
  applyDocRequests prev
    ((if prev.length + 1 > 2 then
        [DocRequest.deleteContentRange 1 (prev.length + 1 - 1)]
      else []) ++
     sectionInsertRequests resume_content cover_letter_content)

/-! ## Document upsert (`_process_single_job`, lines 322–347) -/

/-- Outcome of the document-upsert block: updated `google_doc_id`,
`google_doc_url`, the `(resume, cover letter)` text pair written to the
combined document when one was written, and the final value of the
`resume_content_text` variable (mutated by the original-resume fallback).
`Except.error` models a raised Drive/Docs API exception. -/
def docUpsert (ext : Externals) (config : DriveConfig) (company_name : String)
    (google_doc_id google_doc_url : String)
    (resume_content_text cover_letter_content resume_content : String) :
    Except String (String × String × Option (String × String) × String) :=
  if resume_content_text ≠ "" || cover_letter_content ≠ "" then
    match
      if google_doc_id ≠ "" then ext.update_doc google_doc_id
      else ext.create_doc config.output_folder_id
        (company_name ++ " - Resume & Cover Letter") with
    | .error e => .error e
    | .ok ref =>
        .ok (ref.doc_id, ref.doc_url,
          some ((if resume_content_text = "" then resume_content
                 else resume_content_text), cover_letter_content),
          if resume_content_text = "" then resume_content else resume_content_text)
  else .ok (google_doc_id, google_doc_url, none, resume_content_text)

/-! ## `_process_single_job` -/

/-- The recommendations-only prompt built at lines 290–300. -/
def recommendationsPrompt (job_description resume_content : String) : String :=
  "\nBased on the job description and the candidate's current resume, provide 3-5 specific, actionable recommendations for improving the resume to better match this job opportunity.\n\n**Job Description:**\n" ++
  pyTake job_description 2000 ++
  "...\n\n**Current Resume:**\n" ++
  pyTake resume_content 2000 ++
  "...\n\nProvide clear, actionable recommendations in a concise format.\n"

/-- Result of `_process_single_job`: the returned status dictionary plus
the final database row (`db`), the final in-memory object (`mem`), the
artifact tables (newest first), and the document write if any. -/
structure PSJResult where
  success : Bool
  error : Option String := none
  mem : JobApplication
  db : JobApplication
  genResumes : List GeneratedResume
  genCovers : List GeneratedCoverLetter
  docWrite : Option (String × String) := none
  deriving Repr, DecidableEq

/-- Company-name backfill (lines 242–248): computed once, defaulting to
the literal `"Company"`, then saved. -/
def companyBackfill (ext : Externals) (m : JobApplication) : JobApplication :=
  if m.company_name = "" then
    let cn := ext.extract_company_name m.job_description m.job_url
    { m with company_name := if cn = "" then "Company" else cn }
  else m

/-- Cover-letter generation gate and call (lines 261–271): returns
`(cover_generated, cover_letter_content)`. -/
def coverStep (ext : Externals) (config : DriveConfig) (force_reprocess : Bool)
    (mem2 : JobApplication) (resume_content : String) : Bool × String :=
  let should_generate_cover_letter :=
    config.always_generate_cover_letter || mem2.generate_cover_letter
  if should_generate_cover_letter && (force_reprocess || !mem2.cover_letter_generated) then
    let r := ext.generate_cover_letter mem2 resume_content mem2.additional_instructions
    if r.success then (true, r.content) else (false, "")
  else (false, "")

/-- Resume generation gate and call (lines 273–304): returns
`(resume_generated, resume_content_text, recommendations)`; the bare
`generate_content` call of the recommendations-only branch can raise. -/
def resumeStep (ext : Externals) (config : DriveConfig) (force_reprocess : Bool)
    (mem2 : JobApplication) (resume_content : String) :
    Except String (Bool × String × String) :=
  let should_generate_resume := config.generate_new_resume && mem2.generate_resume
  if should_generate_resume && (force_reprocess || !mem2.resume_generated) then
    if mem2.generate_new_resume then
      let r := ext.generate_resume mem2 resume_content mem2.additional_instructions
      if r.success then .ok (true, r.content, r.recommendations) else .ok (false, "", "")
    else
      if config.generate_recommendations then
        match ext.generate_content
            (recommendationsPrompt mem2.job_description resume_content) with
        | .error e => .error e
        | .ok recs => .ok (true, "", recs)
      else .ok (true, "", "")
  else .ok (false, "", "")

/-- Combined-document lookup (lines 306–320): the `(doc_id, doc_url)` of
the most recent artifact that carries one, the resume table first. -/
def existingDocRef (genResumes : List GeneratedResume)
    (genCovers : List GeneratedCoverLetter) (jid : Nat) : String × String :=
  let fromCover : String × String :=
    match genCovers.find? (fun g => g.job_application = jid) with
    | some g => if g.google_doc_id ≠ "" then (g.google_doc_id, g.google_doc_url) else ("", "")
    | none => ("", "")
  match genResumes.find? (fun g => g.job_application = jid) with
  | some g => if g.google_doc_id ≠ "" then (g.google_doc_id, g.google_doc_url) else fromCover
  | none => fromCover

/-- The `except` handler of `_process_single_job`: mark the in-memory
object failed and save it. -/
def failedResult (m : JobApplication) (e : String)
    (genResumes : List GeneratedResume) (genCovers : List GeneratedCoverLetter) :
    PSJResult :=
  { success := false, error := some e
    mem := { m with status := Status.failed }, db := { m with status := Status.failed }
    genResumes := genResumes, genCovers := genCovers }

/-- Artifact persistence, OR-flag update, status recomputation and Excel
write-back (lines 349–393), given the generation outcome and the document
upsert outcome. -/
def finishJob (ext : Externals) (mem2 : JobApplication)
    (genResumes : List GeneratedResume) (genCovers : List GeneratedCoverLetter)
    (resume_generated cover_generated : Bool)
    (rtext cover_letter_content recommendations resume_content : String)
    (google_doc_id google_doc_url : String) (docW : Option (String × String)) :
    PSJResult :=
  let genResumes' :=
    if (resume_generated || rtext ≠ "" || cover_generated) &&
       (rtext ≠ "" || resume_generated) then
      { job_application := mem2.id
        content := if rtext ≠ "" then rtext else resume_content
        recommendations := recommendations
        google_doc_id := google_doc_id
        google_doc_url := google_doc_url
        company_name := mem2.company_name } :: genResumes
    else genResumes
  let genCovers' :=
    if cover_generated then
      ({ job_application := mem2.id
         content := cover_letter_content
         google_doc_id := google_doc_id
         google_doc_url := google_doc_url } : GeneratedCoverLetter) :: genCovers
    else genCovers
  -- OR-update of completion flags, then status recomputation
  let mem3 := { mem2 with
    resume_generated := mem2.resume_generated || resume_generated
    cover_letter_generated := mem2.cover_letter_generated || cover_generated }
  let mem4 :=
    if mem3.resume_generated && mem3.cover_letter_generated then
      { mem3 with status := Status.completed }
    else if mem3.resume_generated || mem3.cover_letter_generated then
      { mem3 with status := Status.processing }
    else mem3
  -- write-back (skipped when `excel_row_index` is falsy)
  let excelStep : Except String Unit :=
    match mem4.excel_row_index with
    | some i =>
        if i ≠ 0 then
          ext.update_excel i mem4.resume_generated mem4.cover_letter_generated
            (if recommendations ≠ "" then some recommendations else none)
            mem4.company_name
            (if google_doc_url ≠ "" then some google_doc_url else none)
        else .ok ()
    | none => .ok ()
  match excelStep with
  | .error e =>
      { success := false, error := some e
        mem := { mem4 with status := Status.failed }
        db := { mem4 with status := Status.failed }
        genResumes := genResumes', genCovers := genCovers', docWrite := docW }
  | .ok _ =>
      { success := true, mem := mem4, db := mem4
        genResumes := genResumes', genCovers := genCovers', docWrite := docW }

/-- The tail of `_process_single_job` after the description backfill:
`mem1` is the job record once `job_description` has been settled (both
copies agree at that point). -/
def process_single_job_from (ext : Externals) (config : DriveConfig)
    (resume_content : String)
    (genResumes : List GeneratedResume) (genCovers : List GeneratedCoverLetter)
    (force_reprocess : Bool) (mem1 : JobApplication) : PSJResult :=
  -- fail-fast on a still-unusable description: plain `return`, no status change
  if mem1.job_description.length < 50 || containsSub (pyTake mem1.job_description 100) "Error" then
    { success := false
      error := some "Could not obtain job description. Please paste the job description in the additional_instructions column of your Google Sheet."
      mem := mem1, db := mem1
      genResumes := genResumes, genCovers := genCovers }
  else
    let mem2 := companyBackfill ext mem1
    let cover := coverStep ext config force_reprocess mem2 resume_content
    match resumeStep ext config force_reprocess mem2 resume_content with
    | .error e => failedResult mem2 e genResumes genCovers
    | .ok (resume_generated, resume_content_text, recommendations) =>
        let docPair := existingDocRef genResumes genCovers mem2.id
        match docUpsert ext config mem2.company_name docPair.1 docPair.2
            resume_content_text cover.2 resume_content with
        | .error e => failedResult mem2 e genResumes genCovers
        | .ok (google_doc_id, google_doc_url, docW, rtext) =>
            finishJob ext mem2 genResumes genCovers resume_generated cover.1
              rtext cover.2 recommendations resume_content
              google_doc_id google_doc_url docW

/-- `_process_single_job`.  `job0` is the freshly saved/created record
(in-memory copy and database row agree on entry); `genResumes` /
`genCovers` are the artifact tables, newest first. -/
def process_single_job (ext : Externals) (config : DriveConfig)
    (resume_content : String)
    (genResumes : List GeneratedResume) (genCovers : List GeneratedCoverLetter)
    (force_reprocess : Bool) (job0 : JobApplication) : PSJResult :=
  process_single_job_from ext config resume_content genResumes genCovers
    force_reprocess (backfillDescription ext job0)

/-! ## `process_drive_excel` — one reconciliation cycle -/

/-- Python `str(b)` applied to a `bool`. -/
def pyStr (b : Bool) : String := if b then "True" else "False"

/-- `str(job_data.get('resume_generated', '')).lower() == 'yes'` — the
"done in sheet" test of lines 129–130, applied to the already-parsed
boolean the adapter stored in the dictionary. -/
def doneInSheet (b : Bool) : Bool := pyLower (pyStr b) = "yes"

/-- `str(job_data.get(..., 'yes')).lower() in ['yes', 'true', '1']` — the
generation-intent test of lines 137–138, applied to the already-parsed
boolean. -/
def sheetFlagTruthy (b : Bool) : Bool :=
  let s := pyLower (pyStr b)
  s = "yes" || s = "true" || s = "1"

/-- The local relational store threaded through a cycle.  Lists are kept
newest-first, matching the models' `-created_at` default ordering, so
`find?` is Django's `.first()`.  `nextId` is the next primary key. -/
structure CycleDB where
  jobs : List JobApplication := []
  genResumes : List GeneratedResume := []
  genCovers : List GeneratedCoverLetter := []
  nextId : Nat := 1
  deriving Repr, DecidableEq

/-- `job.save()` on an existing row: replace the row with the same pk. -/
def dbSave (jobs : List JobApplication) (j : JobApplication) : List JobApplication :=
  jobs.map (fun x => if x.id = j.id then j else x)

/-- `JobApplication.objects.filter(job_url=..., user_resume=...).first()`. -/
def findJob (jobs : List JobApplication) (url : String) (resume : Nat) :
    Option JobApplication :=
  jobs.find? (fun j => j.job_url = url && j.user_resume = resume)

/-- The three aggregate counters of a cycle. -/
structure Counters where
  processed : Nat := 0
  skipped : Nat := 0
  errors : Nat := 0
  deriving Repr, DecidableEq

/-- One iteration of the row loop of `process_drive_excel` (lines 126–186)
for the dictionary `jd`: skip checks, match-or-create, then
`_process_single_job` and the counter update. -/
def cycleStep (ext : Externals) (config : DriveConfig)
    (active_resume_id : Nat) (resume_content : String) (force_reprocess : Bool)
    (st : CycleDB × Counters) (jd : JobData) : CycleDB × Counters :=
  let db := st.1
  let c := st.2
  let resume_done_in_sheet := doneInSheet jd.resume_generated
  let cover_done_in_sheet := doneInSheet jd.cover_letter_generated
  if !force_reprocess && resume_done_in_sheet && cover_done_in_sheet then
    (db, { c with skipped := c.skipped + 1 })
  else
    let should_gen_resume := sheetFlagTruthy jd.generate_resume
    let should_gen_cover := sheetFlagTruthy jd.generate_cover_letter
    if !force_reprocess && !should_gen_resume && !should_gen_cover then
      (db, { c with skipped := c.skipped + 1 })
    else
      let matched := findJob db.jobs jd.job_url active_resume_id
      let found :=
        match matched with
        | some j =>
            let j' := { j with
              generate_resume := should_gen_resume
              generate_cover_letter := should_gen_cover
              additional_instructions := jd.additional_instructions
              excel_row_index := some jd.excel_row_index }
            (j', { db with jobs := dbSave db.jobs j' })
        | none =>
            let j' : JobApplication :=
              { id := db.nextId
                job_url := jd.job_url
                additional_instructions := jd.additional_instructions
                generate_resume := should_gen_resume
                generate_cover_letter := should_gen_cover
                generate_new_resume := jd.generate_new_resume
                resume_generated := resume_done_in_sheet
                cover_letter_generated := cover_done_in_sheet
                excel_row_index := some jd.excel_row_index
                company_name := jd.company_name
                user_resume := active_resume_id }
            (j', { db with jobs := j' :: db.jobs, nextId := db.nextId + 1 })
      let job0 := found.1
      let db1 := found.2
      let r := process_single_job ext config resume_content
        db1.genResumes db1.genCovers force_reprocess job0
      let db2 := { db1 with
        jobs := dbSave db1.jobs r.db
        genResumes := r.genResumes
        genCovers := r.genCovers }
      if r.success then (db2, { c with processed := c.processed + 1 })
      else (db2, { c with errors := c.errors + 1 })

/-- The status dictionary a cycle returns. -/
structure CycleResult where
  success : Bool
  error : Option String := none
  processed : Nat := 0
  skipped : Nat := 0
  errors : Nat := 0
  total : Nat := 0
  db : CycleDB
  deriving Repr, DecidableEq

/-- `process_drive_excel`: read the sheet, require an active resume, run
the row loop, return the aggregate counts.  `active` is
`get_active_resume()` as `(primary key, extracted text)`. -/
def process_drive_excel (ext : Externals) (config : DriveConfig)
    (active : Option (Nat × String)) (force_reprocess : Bool)
    (db0 : CycleDB) (sheet : List SheetRow) : CycleResult :=
  let job_apps_data := read_excel_from_drive sheet
  match active with
  | none =>
      { success := false
        error := some "No active resume found. Please upload a resume first."
        db := db0 }
  | some (rid, rcontent) =>
      let final := job_apps_data.foldl
        (cycleStep ext config rid rcontent force_reprocess) (db0, {})
      { success := true
        processed := final.2.processed
        skipped := final.2.skipped
        errors := final.2.errors
        total := job_apps_data.length
        db := final.1 }

/-! ## `update_excel_in_drive` — read-modify-write write-back -/

/-- The column preparation `update_excel_in_drive` performs on the
downloaded copy: `unique_id`, `recommendations`, `company_name` and
`google_doc_url` are cast to `str` with whole-cell `'nan'` replaced by
`''`; the two status columns are cast to `str` (NaN becomes the string
`"nan"`). -/
def normalizeWriteRow (r : SheetRow) : SheetRow :=
  let strip := fun (c : Option String) =>
    let s := cellStr c
    some (if s = "nan" then "" else s)
  { r with
    unique_id := strip r.unique_id
    resume_generated := some (cellStr r.resume_generated)
    cover_letter_generated := some (cellStr r.cover_letter_generated)
    company_name := strip r.company_name }

/-- The field updates applied to the located row (`None` = leave alone). -/
structure ExcelRowUpdate where
  unique_id : Option String := none
  resume_generated : Option Bool := none
  cover_letter_generated : Option Bool := none
  recommendations : Option String := none
  company_name : Option String := none
  google_doc_url : Option String := none
  deriving Repr, DecidableEq

/-- Apply the non-`None` updates to one row (`'yes'`/`'no'` for flags). -/
def applyRowUpdate (u : ExcelRowUpdate) (r : SheetRow) : SheetRow :=
  let r := match u.unique_id with
    | some v => { r with unique_id := some v }
    | none => r
  let r := match u.resume_generated with
    | some b => { r with resume_generated := some (if b then "yes" else "no") }
    | none => r
  let r := match u.cover_letter_generated with
    | some b => { r with cover_letter_generated := some (if b then "yes" else "no") }
    | none => r
  let r := match u.company_name with
    | some v => { r with company_name := some v }
    | none => r
  r

/-- `update_excel_in_drive`: download the sheet, normalize columns, locate
the data row at `row_index - 2`, mutate only the requested fields, and
only then re-upload the whole table.  A `row_index` outside the data-row
range raises before anything is uploaded. -/
def update_excel_in_drive (sheet : List SheetRow) (row_index : Int)
    (u : ExcelRowUpdate) : Except String (List SheetRow) :=
  let df := sheet.map normalizeWriteRow
  let df_index := row_index - 2
  if df_index < 0 || df_index ≥ (df.length : Int) then
    .error ("Error updating Excel in Google Drive: Invalid row index: " ++
      toString row_index)
  else
    .ok (df.mapIdx (fun k r => if (k : Int) = df_index then applyRowUpdate u r else r))

/-- The remote file across one write-back attempt: the single upload call
replaces it only when the in-memory mutation succeeded; a raised range
error leaves it untouched. -/
def runUpdateExcel (remote : List SheetRow) (row_index : Int) (u : ExcelRowUpdate) :
    List SheetRow × Except String Unit :=
  match update_excel_in_drive remote row_index u with
  | .error e => (remote, .error e)
  | .ok s => (s, .ok ())

/-! ## `ExcelSyncService.generate_unique_id` -/

/-- `'%d' % (n % 10)` as a character. -/
def digitChar (n : Nat) : Char := Char.ofNat (48 + n % 10)

/-- `datetime.now().strftime('%Y%m%d')`: the zero-padded `YYYYMMDD`
digits of the current date. -/
def dateChars (y m d : Nat) : List Char :=
  [digitChar (y / 1000), digitChar (y / 100), digitChar (y / 10), digitChar y,
   digitChar (m / 10), digitChar m, digitChar (d / 10), digitChar d]

/-- `f"JOB-{date}-{uuid4().hex[:8].upper()}"`; `uuidHex` is the
32-character lowercase hex representation the `uuid` library returns. -/
def generate_unique_id (y m d : Nat) (uuidHex : String) : String :=
  ⟨"JOB-".toList ++ dateChars y m d ++ ['-'] ++
    (uuidHex.toList.take 8).map Char.toUpper⟩

/-- The decimal digits. -/
def digitChars : List Char := (List.range 10).map (fun n => Char.ofNat (48 + n))

/-- The six lowercase hex letters. -/
def lowerHexLetters : List Char := ['a', 'b', 'c', 'd', 'e', 'f']

/-- Lowercase hexadecimal digits (the alphabet of `uuid4().hex`). -/
def lowerHexChars : List Char := digitChars ++ lowerHexLetters

/-- Uppercase hexadecimal digits. -/
def upperHexChars : List Char := digitChars ++ ['A', 'B', 'C', 'D', 'E', 'F']

/-- The spec's `JOB-YYYYMMDD-XXXXXXXX` shape: exactly 21 characters —
the literal `JOB-`, an 8-digit date, a dash, 8 uppercase hex characters. -/
def matchesJobIdPattern (s : String) : Bool :=
  match s.toList with
  | j :: o :: b :: dash1 :: y1 :: y2 :: y3 :: y4 :: m1 :: m2 :: d1 :: d2 :: dash2 ::
      h1 :: h2 :: h3 :: h4 :: h5 :: h6 :: h7 :: h8 :: [] =>
      j = 'J' && o = 'O' && b = 'B' && dash1 = '-' && dash2 = '-' &&
      [y1, y2, y3, y4, m1, m2, d1, d2].all (digitChars.contains ·) &&
      [h1, h2, h3, h4, h5, h6, h7, h8].all (upperHexChars.contains ·)
  | _ => false

/-- The document layout the spec describes: cover-letter section first,
then the page-break marker, then the resume section (stated from the
spec's words, for comparison with the code's construction). -/
def specCoverFirstBody (resume_content cover_letter_content : String) : String :=
  "COVER LETTER\n\n" ++ cover_letter_content ++ "\n\n" ++
  "\n--- PAGE BREAK ---\n\n" ++ "RESUME\n\n" ++ resume_content

/-! ## Verification predicates over the cycle state -/

/-- Completion flags never go from true to false between two snapshots of
the same record. -/
def flagsMono (a b : JobApplication) : Prop :=
  (a.resume_generated = true → b.resume_generated = true) ∧
  (a.cover_letter_generated = true → b.cover_letter_generated = true)

/-- Invariant threaded through a cycle for the OR-only flag update:
every current record is flag-monotone over the matching base record,
primary keys stay below `nextId`, and `nextId` never decreases. -/
def cycleFlagInv (base db : CycleDB) : Prop :=
  (∀ x ∈ db.jobs, ∀ j0 ∈ base.jobs, j0.id = x.id → flagsMono j0 x) ∧
  (∀ x ∈ db.jobs, x.id < db.nextId) ∧ base.nextId ≤ db.nextId

/-- Invariant threaded through a cycle for `unique_id`: every record the
cycle created (primary key at or above the base `nextId`) has an empty
`unique_id`. -/
def cycleUniqueInv (base db : CycleDB) : Prop :=
  (∀ x ∈ db.jobs, base.nextId ≤ x.id → x.unique_id = "") ∧ base.nextId ≤ db.nextId

/-! ## Concrete fixtures used to evaluate the model -/

/-- A 60-character description with no failure marker. -/
def longDescription : String := ⟨List.replicate 60 'd'⟩

/-- Oracle bundle where every external call succeeds. -/
def oracleHappy : Externals where
  scrape := fun _ => longDescription
  generate_cover_letter := fun _ _ _ => { success := true, content := "CL" }
  generate_resume := fun _ _ _ =>
    { success := true, content := "RR", recommendations := "recs" }
  generate_content := fun _ => .ok "recs2"
  extract_company_name := fun _ _ => "Acme"
  create_doc := fun _ _ => .ok { doc_id := "D1", doc_url := "U1" }
  update_doc := fun _ => .ok { doc_id := "D1", doc_url := "U1" }
  update_excel := fun _ _ _ _ _ _ => .ok ()

/-- Like `oracleHappy` but both AI generation wrappers report failure. -/
def oracleFailGen : Externals := { oracleHappy with
  generate_cover_letter := fun _ _ _ => { success := false, content := "" }
  generate_resume := fun _ _ _ =>
    { success := false, content := "", recommendations := "" } }

/-- Generation fails and the scraper returns its "Unable to extract"
failure-marker text (the literal string from `JobScraperService`). -/
def oracleScrapeFail : Externals := { oracleFailGen with
  scrape := fun _ => "Unable to extract sufficient job description content from URL. Please paste the job description manually in the 'additional_instructions' column of your Google Sheet." }

/-- Generation fails and the scraper returns text under 50 characters. -/
def oracleShortScrape : Externals := { oracleFailGen with scrape := fun _ => "tiny" }

/-- A sheet row whose completion cells both read `"yes"`. -/
def rowBothDone : SheetRow :=
  { job_url := some "https://x.com/j"
    resume_generated := some "yes"
    cover_letter_generated := some "yes" }

/-- A local record for the same URL with both completion flags true. -/
def jobBothDone : JobApplication :=
  { id := 1
    job_url := "https://x.com/j"
    job_description := longDescription
    company_name := "Acme"
    resume_generated := true
    cover_letter_generated := true
    excel_row_index := some 2
    user_resume := 7
    status := .completed }

/-- A job with an empty description and 150 characters of pasted
instructions (the content-salvage scenario). -/
def jobPastedInstructions : JobApplication :=
  { id := 1
    job_url := "https://x.com/j"
    job_description := ""
    additional_instructions := ⟨List.replicate 150 'x'⟩
    user_resume := 7 }

/-- A pre-marked-done row that also carries a usable description cell. -/
def rowDoneWithDesc : SheetRow :=
  { job_url := some "https://x.com/j"
    job_description := some longDescription
    resume_generated := some "yes"
    cover_letter_generated := some "yes" }

/-- A row with a whitespace-only URL cell and a NaN description cell. -/
def rowBlankBoth : SheetRow := { job_url := some "  ", job_description := none }

/-- A row whose completion cells read `"no"` (fresh work, sheet-side). -/
def rowBothNo : SheetRow :=
  { job_url := some "https://x.com/j"
    resume_generated := some "no"
    cover_letter_generated := some "no" }

/-- A row carrying only a job URL (description to be scraped). -/
def rowUrlOnly : SheetRow := { job_url := some "https://x.com/j" }

/-- A freshly created record carrying only a job URL. -/
def jobUrlOnlyRecord : JobApplication :=
  { id := 1, job_url := "https://x.com/j", user_resume := 7 }

/-! ## Field-preservation lemmas for the single-job processor -/

/-- `backfillDescription` changes only `job_description`. -/
lemma backfillDescription_fields (ext : Externals) (j : JobApplication) :
    (backfillDescription ext j).id = j.id ∧
    (backfillDescription ext j).unique_id = j.unique_id ∧
    (backfillDescription ext j).resume_generated = j.resume_generated ∧
    (backfillDescription ext j).cover_letter_generated = j.cover_letter_generated ∧
    (backfillDescription ext j).status = j.status := by
  unfold backfillDescription
  split <;> exact ⟨rfl, rfl, rfl, rfl, rfl⟩

/-- `companyBackfill` changes only `company_name`. -/
lemma companyBackfill_fields (ext : Externals) (m : JobApplication) :
    (companyBackfill ext m).id = m.id ∧
    (companyBackfill ext m).unique_id = m.unique_id ∧
    (companyBackfill ext m).resume_generated = m.resume_generated ∧
    (companyBackfill ext m).cover_letter_generated = m.cover_letter_generated := by
  unfold companyBackfill
  split <;> exact ⟨rfl, rfl, rfl, rfl⟩

/-- `finishJob` keeps the primary key and `unique_id` and only ORs the
completion flags. -/
lemma finishJob_fields (ext : Externals) (mem2 : JobApplication)
    (grs : List GeneratedResume) (gcs : List GeneratedCoverLetter)
    (rg cg : Bool) (rtext clc recs rc gid gurl : String)
    (docW : Option (String × String)) :
    (finishJob ext mem2 grs gcs rg cg rtext clc recs rc gid gurl docW).db.id = mem2.id ∧
    (finishJob ext mem2 grs gcs rg cg rtext clc recs rc gid gurl docW).db.unique_id = mem2.unique_id ∧
    (finishJob ext mem2 grs gcs rg cg rtext clc recs rc gid gurl docW).db.resume_generated
      = (mem2.resume_generated || rg) ∧
    (finishJob ext mem2 grs gcs rg cg rtext clc recs rc gid gurl docW).db.cover_letter_generated
      = (mem2.cover_letter_generated || cg) := by
  simp only [finishJob]
  repeat' split
  all_goals exact ⟨rfl, rfl, rfl, rfl⟩

/-- The database row `_process_single_job` leaves behind keeps the primary
key and `unique_id`, and never un-sets a completion flag. -/
lemma process_single_job_db_fields (ext : Externals) (cfg : DriveConfig) (rc : String)
    (grs : List GeneratedResume) (gcs : List GeneratedCoverLetter) (force : Bool)
    (j : JobApplication) :
    (process_single_job ext cfg rc grs gcs force j).db.id = j.id ∧
    (process_single_job ext cfg rc grs gcs force j).db.unique_id = j.unique_id ∧
    (j.resume_generated = true →
      (process_single_job ext cfg rc grs gcs force j).db.resume_generated = true) ∧
    (j.cover_letter_generated = true →
      (process_single_job ext cfg rc grs gcs force j).db.cover_letter_generated = true) := by
  obtain ⟨hb1, hb2, hb3, hb4, _⟩ := backfillDescription_fields ext j
  obtain ⟨hc1, hc2, hc3, hc4⟩ := companyBackfill_fields ext (backfillDescription ext j)
  simp only [process_single_job, process_single_job_from]
  split
  · exact ⟨hb1, hb2, fun h => by simp [hb3, h], fun h => by simp [hb4, h]⟩
  · split
    · -- resumeStep raised
      refine ⟨by simp [failedResult, hc1, hb1], by simp [failedResult, hc2, hb2], ?_, ?_⟩ <;>
        intro h <;> simp [failedResult, hc3, hc4, hb3, hb4, h]
    · split
      · -- docUpsert raised
        refine ⟨by simp [failedResult, hc1, hb1], by simp [failedResult, hc2, hb2], ?_, ?_⟩ <;>
          intro h <;> simp [failedResult, hc3, hc4, hb3, hb4, h]
      · -- finished
        obtain ⟨hf1, hf2, hf3, hf4⟩ := finishJob_fields ext
          (companyBackfill ext (backfillDescription ext j)) grs gcs _ _ _ _ _ rc _ _ _
        refine ⟨by rw [hf1, hc1, hb1], by rw [hf2, hc2, hb2], ?_, ?_⟩ <;>
          intro h
        · rw [hf3, hc3, hb3, h]; rfl
        · rw [hf4, hc4, hb4, h]; rfl

/-! ## C1 — the both-done-in-sheet skip never fires

`read_excel_from_drive` stores the completion cells as parsed booleans,
but lines 129–130 compare `str(bool).lower()` — `'true'`/`'false'` — with
`'yes'`, so `resume_done_in_sheet`/`cover_done_in_sheet` are identically
false and the skip at line 132 is dead code. -/

/-- The line 129–130 test is false for every parsed cell value. -/
lemma doneInSheet_false (b : Bool) : doneInSheet b = false := by
  cases b <;> decide

/-- C1: a row whose completion cells both read `"yes"` and whose matching
local record has both completion flags true is NOT skipped: the skip
test of lines 129–132 never succeeds on the adapter's boolean values, and
the cycle counts the row as processed (`skipped = 0`, `processed = 1`),
contradicting the claim that it is counted as skipped. -/
theorem both_done_row_counted_processed_not_skipped :
    (∀ b, doneInSheet b = false) ∧
    (process_drive_excel oracleHappy {} (some (7, "RC")) false
        { jobs := [jobBothDone], nextId := 2 } [rowBothDone]).skipped = 0 ∧
    (process_drive_excel oracleHappy {} (some (7, "RC")) false
        { jobs := [jobBothDone], nextId := 2 } [rowBothDone]).processed = 1 := by
  refine ⟨doneInSheet_false, ?_, ?_⟩ <;> decide

/-! ## C3 — completion-flag seeding for newly created records

Lines 157–158 pass `resume_generated=resume_done_in_sheet` /
`cover_letter_generated=cover_done_in_sheet`, intending to seed from the
sheet cells, but those variables are identically false (see C1), so a
row pre-marked done yields a record whose flags are false and whose
artifacts are regenerated. -/

/-- C3: the adapter reads the row's completion cells as done
(`resume_generated = true` in the row dictionary), yet the JobApplication
created for it carries `resume_generated = false` and
`cover_letter_generated = false` — the seeding the claim describes never
transfers a true value. -/
theorem premarked_row_seeds_false_flags :
    ((read_excel_from_drive [rowDoneWithDesc]).head?.map
      (fun jd => (jd.resume_generated, jd.cover_letter_generated))) =
        some (true, true) ∧
    ((process_drive_excel oracleFailGen {} (some (7, "RC")) false
        { nextId := 1 } [rowDoneWithDesc]).db.jobs.head?.map
      (fun j => (j.resume_generated, j.cover_letter_generated))) =
        some (false, false) := by
  constructor <;> decide

/-! ## C4 — the additional-instructions salvage never clears the field

`job_app.additional_instructions = ""` (line 229) mutates only the
in-memory object; `update_job_description` saves a freshly fetched row
(only its description changed) and `refresh_from_db` then overwrites the
in-memory clear.  The promoted text is persisted, the clear is lost. -/

set_option maxRecDepth 8192 in
/-- C4: with an empty description, 150 characters of instructions and a
scraper returning the failure-marker text, the persisted description is
the promoted instructions text, but the persisted
`additional_instructions` still equals the original (non-empty) text —
the claimed clearing never reaches the database. -/
theorem salvage_promotes_but_never_clears_instructions :
    (process_single_job oracleScrapeFail {} "RC" [] [] false
        jobPastedInstructions).db.job_description =
      "Job Description (from user input):\n\n" ++
        jobPastedInstructions.additional_instructions ∧
    (process_single_job oracleScrapeFail {} "RC" [] [] false
        jobPastedInstructions).db.additional_instructions =
      jobPastedInstructions.additional_instructions ∧
    jobPastedInstructions.additional_instructions ≠ "" := by
  refine ⟨?_, ?_, ?_⟩ <;> decide

/-! ## C7 — out-of-range write-back fails before any upload -/

/-- C7: when `row_index - 2` is negative or at least the number of data
rows, `update_excel_in_drive` raises the range error — the check sits
before the re-upload call — and the remote sheet is left exactly as it
was (no partial write). -/
theorem writeback_out_of_range_fails_before_upload
    (sheet : List SheetRow) (row_index : Int) (u : ExcelRowUpdate)
    (h : row_index - 2 < 0 ∨ (sheet.length : Int) ≤ row_index - 2) :
    (runUpdateExcel sheet row_index u).1 = sheet ∧
    ∃ e, update_excel_in_drive sheet row_index u = Except.error e ∧
      (runUpdateExcel sheet row_index u).2 = Except.error e := by
  have hcond : (decide (row_index - 2 < 0) ||
      decide (row_index - 2 ≥ ((sheet.map normalizeWriteRow).length : Int))) = true := by
    simp only [List.length_map, Bool.or_eq_true, decide_eq_true_eq, ge_iff_le]
    omega
  unfold runUpdateExcel update_excel_in_drive
  rw [if_pos hcond]
  exact ⟨rfl, _, rfl, rfl⟩

/-- Witness for C7: row index 5 on a sheet of 3 data rows. -/
theorem writeback_out_of_range_fails_before_upload_witness :
    (runUpdateExcel [rowBothDone, rowBothDone, rowBothDone] 5
        { resume_generated := some true }).1 =
      [rowBothDone, rowBothDone, rowBothDone] ∧
    ∃ e, update_excel_in_drive [rowBothDone, rowBothDone, rowBothDone] 5
        { resume_generated := some true } = Except.error e ∧
      (runUpdateExcel [rowBothDone, rowBothDone, rowBothDone] 5
        { resume_generated := some true }).2 = Except.error e :=
  writeback_out_of_range_fails_before_upload _ 5 _ (by decide)

/-! ## C9 — row exclusion at ingestion -/

/-- Every dictionary `readRowsFrom i` emits comes from an included row,
with `excel_row_index` determined by the row's position. -/
lemma readRowsFrom_mem {i : Nat} {rows : List SheetRow} {jd : JobData}
    (h : jd ∈ readRowsFrom i rows) :
    ∃ k, ∃ hk : k < rows.length, rowIncluded (rows.get ⟨k, hk⟩) = true ∧
      jd = rowToJobData (i + k) (rows.get ⟨k, hk⟩) := by
  induction rows generalizing i with
  | nil => simp [readRowsFrom] at h
  | cons r rest ih =>
      rw [readRowsFrom] at h
      by_cases hr : rowIncluded r = true
      · rw [if_pos hr] at h
        rcases List.mem_cons.1 h with h1 | h2
        · exact ⟨0, by simp, by simpa using hr, by simpa using h1⟩
        · obtain ⟨k, hk, hinc, hjd⟩ := ih h2
          refine ⟨k + 1, by simpa using hk, by simpa using hinc, ?_⟩
          rw [hjd]
          congr 1
          omega
      · rw [if_neg hr] at h
        obtain ⟨k, hk, hinc, hjd⟩ := ih h
        refine ⟨k + 1, by simpa using hk, by simpa using hinc, ?_⟩
        rw [hjd]
        congr 1
        omega

/-- Conversely, every included row contributes its dictionary. -/
lemma readRowsFrom_mem_of_included {rows : List SheetRow} {k : Nat}
    (hk : k < rows.length) (hinc : rowIncluded (rows.get ⟨k, hk⟩) = true)
    (i : Nat) :
    rowToJobData (i + k) (rows.get ⟨k, hk⟩) ∈ readRowsFrom i rows := by
  induction rows generalizing i k with
  | nil => simp at hk
  | cons r rest ih =>
      cases k with
      | zero =>
          rw [readRowsFrom, if_pos (by simpa using hinc)]
          simp only [List.get_cons_zero, Nat.add_zero]
          exact List.mem_cons_self _ _
      | succ k =>
          have hk' : k < rest.length := by simpa using hk
          have hmem := ih hk' (by simpa using hinc) (i + 1)
          have harith : i + 1 + k = i + (k + 1) := by omega
          rw [harith] at hmem
          rw [readRowsFrom]
          by_cases hr : rowIncluded r = true
          · rw [if_pos hr]
            exact List.mem_cons_of_mem _ (by simpa using hmem)
          · rw [if_neg hr]
            simpa using hmem

/-- C9: the adapter excludes the row at position `k` if and only if both
its `job_url` and `job_description` cells trim to empty (NaN as empty) —
equivalently, no emitted dictionary (hence no JobApplication) carries
that row's `excel_row_index`. -/
theorem row_excluded_iff_url_and_description_blank
    (rows : List SheetRow) (k : Nat) (hk : k < rows.length) :
    (trimCell (rows.get ⟨k, hk⟩).job_url = "" ∧
     trimCell (rows.get ⟨k, hk⟩).job_description = "")
    ↔ ∀ jd ∈ read_excel_from_drive rows, jd.excel_row_index ≠ k + 2 := by
  constructor
  · rintro ⟨hu, hd⟩ jd hjd hEq
    obtain ⟨k', hk', hinc, rfl⟩ := readRowsFrom_mem hjd
    have hk'k : k' = k := by
      simp only [rowToJobData] at hEq
      omega
    subst hk'k
    simp only [rowIncluded, hu, hd] at hinc
    simp at hinc
  · intro hall
    by_contra hne
    have hinc : rowIncluded (rows.get ⟨k, hk⟩) = true := by
      simp only [rowIncluded, Bool.not_eq_true', Bool.and_eq_false_iff,
        decide_eq_false_iff_not]
      tauto
    have hmem := readRowsFrom_mem_of_included hk hinc 0
    exact hall _ hmem (by simp [rowToJobData])

/-- Witness for C9 at a concrete one-row sheet whose only row is blank. -/
theorem row_excluded_iff_url_and_description_blank_witness :
    (trimCell (([rowBlankBoth] : List SheetRow).get ⟨0, by decide⟩).job_url = "" ∧
     trimCell (([rowBlankBoth] : List SheetRow).get ⟨0, by decide⟩).job_description = "")
    ↔ ∀ jd ∈ read_excel_from_drive [rowBlankBoth], jd.excel_row_index ≠ 0 + 2 :=
  row_excluded_iff_url_and_description_blank [rowBlankBoth] 0 (by decide)


/-! ## Store-level helper lemmas -/

/-- Saving a record leaves every list element either untouched or replaced
by the saved record. -/
lemma mem_dbSave {jobs : List JobApplication} {j x : JobApplication}
    (h : x ∈ dbSave jobs j) : x = j ∨ x ∈ jobs := by
  unfold dbSave at h
  obtain ⟨y, hy, hxy⟩ := List.mem_map.1 h
  by_cases hid : y.id = j.id
  · rw [if_pos hid] at hxy
    exact Or.inl hxy.symm
  · rw [if_neg hid] at hxy
    exact Or.inr (hxy ▸ hy)

/-- A record found by `findJob` is in the table. -/
lemma findJob_mem {jobs : List JobApplication} {url : String} {rid : Nat}
    {j : JobApplication} (h : findJob jobs url rid = some j) : j ∈ jobs := by
  unfold findJob at h
  exact List.mem_of_find?_eq_some h

/-! ## C2 — completion flags are OR-only across a cycle -/

/-- One row-loop iteration preserves the flag-monotonicity invariant. -/
lemma cycleStep_flagInv (ext : Externals) (cfg : DriveConfig) (rid : Nat)
    (rc : String) (force : Bool) (base : CycleDB)
    (hbase : ∀ j0 ∈ base.jobs, j0.id < base.nextId)
    (st : CycleDB × Counters) (jd : JobData)
    (hinv : cycleFlagInv base st.1) :
    cycleFlagInv base (cycleStep ext cfg rid rc force st jd).1 := by
  obtain ⟨h1, h2, h3⟩ := hinv
  simp only [cycleStep]
  split
  · exact ⟨h1, h2, h3⟩
  · split
    · exact ⟨h1, h2, h3⟩
    · rcases hM : findJob st.1.jobs jd.job_url rid with _ | j
      · -- no local match: a fresh record is created
        simp only [hM]
        split
        all_goals {
          refine ⟨?_, ?_, by dsimp only; omega⟩
          · intro x hx j0 h0 hid
            rcases mem_dbSave hx with rfl | hx'
            · obtain ⟨hid', _, _, _⟩ := process_single_job_db_fields ext cfg rc
                st.1.genResumes st.1.genCovers force
                { id := st.1.nextId, job_url := jd.job_url
                  additional_instructions := jd.additional_instructions
                  generate_resume := sheetFlagTruthy jd.generate_resume
                  generate_cover_letter := sheetFlagTruthy jd.generate_cover_letter
                  generate_new_resume := jd.generate_new_resume
                  resume_generated := doneInSheet jd.resume_generated
                  cover_letter_generated := doneInSheet jd.cover_letter_generated
                  excel_row_index := some jd.excel_row_index
                  company_name := jd.company_name
                  user_resume := rid }
              have := hbase j0 h0
              rw [hid'] at hid
              simp at hid
              omega
            · rcases List.mem_cons.1 hx' with rfl | hx''
              · have := hbase j0 h0
                simp at hid
                omega
              · exact h1 x hx'' j0 h0 hid
          · intro x hx
            rcases mem_dbSave hx with rfl | hx'
            · obtain ⟨hid', _, _, _⟩ := process_single_job_db_fields ext cfg rc
                st.1.genResumes st.1.genCovers force _
              dsimp only
              rw [hid']
              simp
            · rcases List.mem_cons.1 hx' with rfl | hx''
              · dsimp only
                simp
              · have := h2 x hx''
                dsimp only
                omega
        }
      · -- matched: in-place update then processing
        simp only [hM]
        have hjmem := findJob_mem hM
        split
        all_goals {
          refine ⟨?_, ?_, by dsimp only; omega⟩
          · intro x hx j0 h0 hid
            obtain ⟨hid', _, hrg, hcg⟩ := process_single_job_db_fields ext cfg rc
              st.1.genResumes st.1.genCovers force
              { j with generate_resume := sheetFlagTruthy jd.generate_resume
                       generate_cover_letter := sheetFlagTruthy jd.generate_cover_letter
                       additional_instructions := jd.additional_instructions
                       excel_row_index := some jd.excel_row_index }
            rcases mem_dbSave hx with rfl | hx'
            · have hmono := h1 j hjmem j0 h0 (by rw [hid] at *; exact hid'.symm ▸ rfl)
              exact ⟨fun h => hrg (hmono.1 h), fun h => hcg (hmono.2 h)⟩
            · rcases mem_dbSave hx' with rfl | hx''
              · have hmono := h1 j hjmem j0 h0 hid
                exact ⟨hmono.1, hmono.2⟩
              · exact h1 x hx'' j0 h0 hid
          · intro x hx
            obtain ⟨hid', _, _, _⟩ := process_single_job_db_fields ext cfg rc
              st.1.genResumes st.1.genCovers force
              { j with generate_resume := sheetFlagTruthy jd.generate_resume
                       generate_cover_letter := sheetFlagTruthy jd.generate_cover_letter
                       additional_instructions := jd.additional_instructions
                       excel_row_index := some jd.excel_row_index }
            rcases mem_dbSave hx with rfl | hx'
            · dsimp only
              rw [hid']
              exact h2 j hjmem
            · rcases mem_dbSave hx' with rfl | hx''
              · dsimp only
                exact h2 j hjmem
              · dsimp only
                exact h2 x hx''
        }

/-- The row loop preserves the flag-monotonicity invariant. -/
lemma cycle_foldl_flagInv (ext : Externals) (cfg : DriveConfig) (rid : Nat)
    (rc : String) (force : Bool) (base : CycleDB)
    (hbase : ∀ j0 ∈ base.jobs, j0.id < base.nextId) :
    ∀ (l : List JobData) (st : CycleDB × Counters), cycleFlagInv base st.1 →
      cycleFlagInv base ((l.foldl (cycleStep ext cfg rid rc force) st)).1 := by
  intro l
  induction l with
  | nil => exact fun st h => h
  | cons jd rest ih =>
      intro st h
      exact ih _ (cycleStep_flagInv ext cfg rid rc force base hbase st jd h)

/-- C2: over a reconciliation cycle run without `force_reprocess`, no
JobApplication ever has a completion flag moved from true back to false —
the persist step only ORs flags, the match-update leaves them alone, and
processing any other row cannot touch the record (the starting store has
well-formed, distinct primary keys below its `nextId`). -/
theorem cycle_never_unsets_completion_flags (ext : Externals) (cfg : DriveConfig)
    (rid : Nat) (rc : String) (db0 : CycleDB) (sheet : List SheetRow)
    (hfresh : ∀ j0 ∈ db0.jobs, j0.id < db0.nextId)
    (huniq : ∀ x ∈ db0.jobs, ∀ j0 ∈ db0.jobs, j0.id = x.id → j0 = x) :
    ∀ x ∈ (process_drive_excel ext cfg (some (rid, rc)) false db0 sheet).db.jobs,
      ∀ j0 ∈ db0.jobs, j0.id = x.id →
        (j0.resume_generated = true → x.resume_generated = true) ∧
        (j0.cover_letter_generated = true → x.cover_letter_generated = true) := by
  have hbase : cycleFlagInv db0 db0 := by
    refine ⟨?_, hfresh, le_refl _⟩
    intro x hx j0 h0 hid
    rw [huniq x hx j0 h0 hid]
    exact ⟨id, id⟩
  have hfin := cycle_foldl_flagInv ext cfg rid rc false db0 hfresh
    (read_excel_from_drive sheet) (db0, {}) hbase
  intro x hx j0 h0 hid
  exact hfin.1 x hx j0 h0 hid

/-- Witness for C2: a store holding one completed job, reconciled against
a sheet whose completion cells read `"no"` — that job survives the cycle
(membership discharged by evaluation) with its flags still true. -/
theorem cycle_never_unsets_completion_flags_witness :
    (jobBothDone.resume_generated = true → jobBothDone.resume_generated = true) ∧
    (jobBothDone.cover_letter_generated = true →
      jobBothDone.cover_letter_generated = true) :=
  cycle_never_unsets_completion_flags oracleHappy {} 7 "RC"
    { jobs := [jobBothDone], nextId := 2 } [rowBothNo]
    (by decide) (by decide) jobBothDone (by decide) jobBothDone (by decide) rfl

/-! ## C5 (cycle side) — created records keep an empty `unique_id` -/

/-- One row-loop iteration preserves the empty-`unique_id` invariant for
created records. -/
lemma cycleStep_uniqueInv (ext : Externals) (cfg : DriveConfig) (rid : Nat)
    (rc : String) (force : Bool) (base : CycleDB)
    (st : CycleDB × Counters) (jd : JobData)
    (hinv : cycleUniqueInv base st.1) :
    cycleUniqueInv base (cycleStep ext cfg rid rc force st jd).1 := by
  obtain ⟨h1, h2⟩ := hinv
  simp only [cycleStep]
  split
  · exact ⟨h1, h2⟩
  · split
    · exact ⟨h1, h2⟩
    · rcases hM : findJob st.1.jobs jd.job_url rid with _ | j
      · simp only [hM]
        split
        all_goals {
          refine ⟨?_, by dsimp only; omega⟩
          intro x hx hle
          obtain ⟨hid', huid', _, _⟩ := process_single_job_db_fields ext cfg rc
            st.1.genResumes st.1.genCovers force
            { id := st.1.nextId, job_url := jd.job_url
              additional_instructions := jd.additional_instructions
              generate_resume := sheetFlagTruthy jd.generate_resume
              generate_cover_letter := sheetFlagTruthy jd.generate_cover_letter
              generate_new_resume := jd.generate_new_resume
              resume_generated := doneInSheet jd.resume_generated
              cover_letter_generated := doneInSheet jd.cover_letter_generated
              excel_row_index := some jd.excel_row_index
              company_name := jd.company_name
              user_resume := rid }
          rcases mem_dbSave hx with rfl | hx'
          · exact huid'
          · rcases List.mem_cons.1 hx' with rfl | hx''
            · rfl
            · exact h1 x hx'' hle
        }
      · simp only [hM]
        have hjmem := findJob_mem hM
        split
        all_goals {
          refine ⟨?_, by dsimp only; omega⟩
          intro x hx hle
          obtain ⟨hid', huid', _, _⟩ := process_single_job_db_fields ext cfg rc
            st.1.genResumes st.1.genCovers force
            { j with generate_resume := sheetFlagTruthy jd.generate_resume
                     generate_cover_letter := sheetFlagTruthy jd.generate_cover_letter
                     additional_instructions := jd.additional_instructions
                     excel_row_index := some jd.excel_row_index }
          rcases mem_dbSave hx with rfl | hx'
          · rw [huid']
            refine h1 j hjmem ?_
            rw [hid'] at hle
            exact hle
          · rcases mem_dbSave hx' with rfl | hx''
            · exact h1 j hjmem hle
            · exact h1 x hx'' hle
        }

/-- The row loop preserves the empty-`unique_id` invariant. -/
lemma cycle_foldl_uniqueInv (ext : Externals) (cfg : DriveConfig) (rid : Nat)
    (rc : String) (force : Bool) (base : CycleDB) :
    ∀ (l : List JobData) (st : CycleDB × Counters), cycleUniqueInv base st.1 →
      cycleUniqueInv base ((l.foldl (cycleStep ext cfg rid rc force) st)).1 := by
  intro l
  induction l with
  | nil => exact fun st h => h
  | cons jd rest ih =>
      intro st h
      exact ih _ (cycleStep_uniqueInv ext cfg rid rc force base st jd h)

/-! ## C10 — processed + skipped + errors = total -/

/-- Each row-loop iteration increments exactly one of the three counters. -/
lemma cycleStep_counts (ext : Externals) (cfg : DriveConfig) (rid : Nat)
    (rc : String) (force : Bool) (st : CycleDB × Counters) (jd : JobData) :
    (cycleStep ext cfg rid rc force st jd).2.processed +
      (cycleStep ext cfg rid rc force st jd).2.skipped +
      (cycleStep ext cfg rid rc force st jd).2.errors =
    st.2.processed + st.2.skipped + st.2.errors + 1 := by
  simp only [cycleStep]
  repeat' split
  all_goals dsimp only
  all_goals omega

/-- Counter sum over the whole row loop. -/
lemma cycle_foldl_counts (ext : Externals) (cfg : DriveConfig) (rid : Nat)
    (rc : String) (force : Bool) :
    ∀ (l : List JobData) (st : CycleDB × Counters),
      ((l.foldl (cycleStep ext cfg rid rc force) st)).2.processed +
        ((l.foldl (cycleStep ext cfg rid rc force) st)).2.skipped +
        ((l.foldl (cycleStep ext cfg rid rc force) st)).2.errors =
      st.2.processed + st.2.skipped + st.2.errors + l.length := by
  intro l
  induction l with
  | nil => intro st; simp
  | cons jd rest ih =>
      intro st
      rw [List.foldl_cons, List.length_cons]
      rw [ih (cycleStep ext cfg rid rc force st jd)]
      rw [cycleStep_counts ext cfg rid rc force st jd]
      omega

/-- C10: every cycle that returns a success result satisfies
`processed + skipped + errors = total`, `total` being the number of
ingested rows — each row increments exactly one counter. -/
theorem cycle_counts_partition (ext : Externals) (cfg : DriveConfig)
    (active : Option (Nat × String)) (force : Bool) (db0 : CycleDB)
    (sheet : List SheetRow)
    (hs : (process_drive_excel ext cfg active force db0 sheet).success = true) :
    (process_drive_excel ext cfg active force db0 sheet).processed +
      (process_drive_excel ext cfg active force db0 sheet).skipped +
      (process_drive_excel ext cfg active force db0 sheet).errors =
    (process_drive_excel ext cfg active force db0 sheet).total := by
  match active with
  | none => simp [process_drive_excel] at hs
  | some (rid, rc) =>
      simp only [process_drive_excel]
      have h := cycle_foldl_counts ext cfg rid rc force (read_excel_from_drive sheet)
        (db0, {})
      dsimp only at h ⊢
      omega

/-- Witness for C10 at a concrete one-row cycle. -/
theorem cycle_counts_partition_witness :
    (process_drive_excel oracleHappy {} (some (7, "RC")) false
        { jobs := [jobBothDone], nextId := 2 } [rowBothDone]).success = true ∧
    (process_drive_excel oracleHappy {} (some (7, "RC")) false
        { jobs := [jobBothDone], nextId := 2 } [rowBothDone]).processed +
      (process_drive_excel oracleHappy {} (some (7, "RC")) false
        { jobs := [jobBothDone], nextId := 2 } [rowBothDone]).skipped +
      (process_drive_excel oracleHappy {} (some (7, "RC")) false
        { jobs := [jobBothDone], nextId := 2 } [rowBothDone]).errors =
    (process_drive_excel oracleHappy {} (some (7, "RC")) false
        { jobs := [jobBothDone], nextId := 2 } [rowBothDone]).total :=
  ⟨by decide, cycle_counts_partition oracleHappy {} (some (7, "RC")) false
    { jobs := [jobBothDone], nextId := 2 } [rowBothDone] (by decide)⟩


/-! ## C5 — unique_id generation and (non-)assignment -/

/-- `toList` of a string built from a character list. -/
lemma mk_toList (l : List Char) : (String.mk l).toList = l := rfl

/-- `digitChar` always yields a decimal digit. -/
lemma digitChar_mem (n : Nat) : digitChars.contains (digitChar n) = true := by
  unfold digitChar
  have h : n % 10 < 10 := Nat.mod_lt _ (by norm_num)
  set k := n % 10 with hk
  interval_cases k <;> decide

/-- Upper-casing a lowercase hex digit yields an uppercase hex digit. -/
lemma toUpper_lowerHex {c : Char} (h : lowerHexChars.contains c = true) :
    upperHexChars.contains c.toUpper = true := by
  have hL : lowerHexChars.contains c =
      (c = '0' || (c = '1' || (c = '2' || (c = '3' || (c = '4' || (c = '5' ||
        (c = '6' || (c = '7' || (c = '8' || (c = '9' || (c = 'a' || (c = 'b' ||
        (c = 'c' || (c = 'd' || (c = 'e' || (c = 'f' || false)))))))))))))))) := by
    simp only [lowerHexChars, digitChars, lowerHexLetters]
    rfl
  rw [hL] at h
  simp only [Bool.or_eq_true, decide_eq_true_eq, Bool.false_eq_true, or_false] at h
  rcases h with h|h|h|h|h|h|h|h|h|h|h|h|h|h|h|h <;> subst h <;> decide

/-- C5 (amended): `generate_unique_id` does produce identifiers matching
`JOB-YYYYMMDD-XXXXXXXX` (for any date in the modelled `strftime` domain
and any uuid4 hex string), but the Drive reconciliation cycle never calls
it: every JobApplication the cycle creates (primary key at or above the
starting `nextId`) is persisted with `unique_id = ""`. -/
theorem generate_unique_id_pattern_but_cycle_never_assigns
    (y m d : Nat) (uuidHex : String)
    (_hy : y ≤ 9999) (_hm : m ≤ 99) (_hd : d ≤ 99)
    (hlen : 8 ≤ uuidHex.toList.length)
    (hhex : ∀ c ∈ uuidHex.toList, lowerHexChars.contains c = true) :
    matchesJobIdPattern (generate_unique_id y m d uuidHex) = true ∧
    ∀ (ext : Externals) (cfg : DriveConfig) (rid : Nat) (rc : String) (force : Bool)
      (db0 : CycleDB) (sheet : List SheetRow),
      (∀ j0 ∈ db0.jobs, j0.id < db0.nextId) →
      ∀ x ∈ (process_drive_excel ext cfg (some (rid, rc)) force db0 sheet).db.jobs,
        db0.nextId ≤ x.id → x.unique_id = "" := by
  constructor
  · -- the generator output matches JOB-YYYYMMDD-XXXXXXXX
    rcases hL : uuidHex.toList with _ | ⟨c1, _ | ⟨c2, _ | ⟨c3, _ | ⟨c4, _ | ⟨c5,
      _ | ⟨c6, _ | ⟨c7, _ | ⟨c8, rest⟩⟩⟩⟩⟩⟩⟩⟩ <;>
      rw [hL] at hlen <;> simp at hlen
    have hmem : ∀ c ∈ [c1, c2, c3, c4, c5, c6, c7, c8],
        lowerHexChars.contains c = true := by
      intro c hc
      apply hhex
      rw [hL]
      simp only [List.mem_cons, List.not_mem_nil, or_false] at hc
      rcases hc with rfl|rfl|rfl|rfl|rfl|rfl|rfl|rfl <;> simp
    have hjob : "JOB-".toList = ['J', 'O', 'B', '-'] := rfl
    have htake : List.take 8 (c1::c2::c3::c4::c5::c6::c7::c8::rest)
        = [c1, c2, c3, c4, c5, c6, c7, c8] := by
      simp [List.take_succ_cons]
    unfold generate_unique_id matchesJobIdPattern
    rw [hL, htake, mk_toList, hjob]
    simp only [dateChars, List.map_cons, List.map_nil, List.cons_append,
      List.nil_append]
    simp only [List.all_cons, List.all_nil, Bool.and_eq_true, Bool.and_true]
    repeat' apply And.intro
    all_goals first
      | decide
      | exact digitChar_mem _
      | exact toUpper_lowerHex (hmem _ (by simp))
  · -- the cycle itself never assigns a unique_id to a record it creates
    intro ext cfg rid rc force db0 sheet hfresh x hx hle
    have hinv : cycleUniqueInv db0 db0 := by
      refine ⟨?_, le_refl _⟩
      intro z hz hlez
      have := hfresh z hz
      omega
    have hfin := cycle_foldl_uniqueInv ext cfg rid rc force db0
      (read_excel_from_drive sheet) (db0, {}) hinv
    exact hfin.1 x hx hle

/-- Witness for C5 at a concrete date and uuid hex string. -/
theorem generate_unique_id_pattern_witness :
    matchesJobIdPattern
      (generate_unique_id 2026 10 12 "0123456789abcdef0123456789abcdef") = true :=
  (generate_unique_id_pattern_but_cycle_never_assigns 2026 10 12
    "0123456789abcdef0123456789abcdef" (by norm_num) (by norm_num) (by norm_num)
    (by decide) (by decide)).1

/-- Counterexample for C5 as stated: a row with a blank `unique_id` cell
and a job URL is persisted by one cycle with an EMPTY `unique_id`, which
does not match the claimed pattern. -/
theorem blank_unique_id_row_persists_empty_not_pattern :
    ((process_drive_excel oracleFailGen {} (some (7, "RC")) false
        { nextId := 1 } [rowUrlOnly]).db.jobs.head?.map (·.unique_id)) = some "" ∧
    matchesJobIdPattern "" = false := by
  constructor <;> decide


/-! ## C8 — content-quality failure handling -/

/-- C8 (amended): when the description is still under 50 characters (or
carries an error marker) after backfill, `_process_single_job` returns a
failure result immediately — no artifacts are appended and the job is
attempted only once — and the cycle counts the row in its error count;
but the JobApplication status is left UNCHANGED (the `failed` status is
set only by the exception handler, which this early `return` bypasses). -/
theorem content_quality_failure_counted_error_status_unchanged
    (ext : Externals) (cfg : DriveConfig) (rc : String)
    (grs : List GeneratedResume) (gcs : List GeneratedCoverLetter)
    (force : Bool) (j0 : JobApplication)
    (hfail : (backfillDescription ext j0).job_description.length < 50 ∨
      containsSub (pyTake (backfillDescription ext j0).job_description 100) "Error" = true) :
    (process_single_job ext cfg rc grs gcs force j0).success = false ∧
    (process_single_job ext cfg rc grs gcs force j0).db.status = j0.status ∧
    (process_single_job ext cfg rc grs gcs force j0).genResumes = grs ∧
    (process_single_job ext cfg rc grs gcs force j0).genCovers = gcs ∧
    (process_drive_excel oracleShortScrape {} (some (7, "RC")) false
        { nextId := 1 } [rowUrlOnly]).errors = 1 ∧
    (process_drive_excel oracleShortScrape {} (some (7, "RC")) false
        { nextId := 1 } [rowUrlOnly]).processed = 0 ∧
    ((process_drive_excel oracleShortScrape {} (some (7, "RC")) false
        { nextId := 1 } [rowUrlOnly]).db.jobs.head?.map (·.status)) =
      some Status.pending := by
  have hcond : (decide ((backfillDescription ext j0).job_description.length < 50) ||
      containsSub (pyTake (backfillDescription ext j0).job_description 100) "Error") = true := by
    rcases hfail with h | h <;> simp [h]
  simp only [process_single_job, process_single_job_from]
  rw [if_pos hcond]
  exact ⟨rfl, (backfillDescription_fields ext j0).2.2.2.2, rfl, rfl,
    by decide, by decide, by decide⟩

/-- Witness for C8 at a concrete short-scrape run. -/
theorem content_quality_failure_witness :
    (process_single_job oracleShortScrape {} "RC" [] [] false jobUrlOnlyRecord).success = false ∧
    (process_single_job oracleShortScrape {} "RC" [] [] false jobUrlOnlyRecord).db.status
      = jobUrlOnlyRecord.status ∧
    (process_single_job oracleShortScrape {} "RC" [] [] false jobUrlOnlyRecord).genResumes
      = ([] : List GeneratedResume) ∧
    (process_single_job oracleShortScrape {} "RC" [] [] false jobUrlOnlyRecord).genCovers
      = ([] : List GeneratedCoverLetter) ∧
    (process_drive_excel oracleShortScrape {} (some (7, "RC")) false
        { nextId := 1 } [rowUrlOnly]).errors = 1 ∧
    (process_drive_excel oracleShortScrape {} (some (7, "RC")) false
        { nextId := 1 } [rowUrlOnly]).processed = 0 ∧
    ((process_drive_excel oracleShortScrape {} (some (7, "RC")) false
        { nextId := 1 } [rowUrlOnly]).db.jobs.head?.map (·.status)) =
      some Status.pending :=
  content_quality_failure_counted_error_status_unchanged oracleShortScrape {} "RC"
    [] [] false jobUrlOnlyRecord (Or.inl (by decide))

/-- Counterexample for C8 as stated: the short-description row is counted
as an error, but its persisted status is `pending`, not `failed`. -/
theorem short_description_row_not_marked_failed :
    ((process_drive_excel oracleShortScrape {} (some (7, "RC")) false
        { nextId := 1 } [rowUrlOnly]).db.jobs.head?.map (·.status)) =
      some Status.pending ∧
    Status.pending ≠ Status.failed ∧
    (process_drive_excel oracleShortScrape {} (some (7, "RC")) false
        { nextId := 1 } [rowUrlOnly]).errors = 1 := by
  exact ⟨by decide, by decide, by decide⟩

/-! ## C6 — combined document layout and resume fallback -/

/-- When no new resume text was produced (`resume_content_text = ""`),
any document the upsert writes carries the unmodified original resume
text in its resume slot. -/
lemma docUpsert_fallback (ext : Externals) (cfg : DriveConfig)
    (company gid gurl cover rc : String)
    (res : String × String × Option (String × String) × String)
    (h : docUpsert ext cfg company gid gurl "" cover rc = .ok res) :
    ∀ p, res.2.2.1 = some p → p.1 = rc := by
  unfold docUpsert at h
  repeat' split at h
  all_goals first
    | (exfalso
       simp_all
       done)
    | (simp only [Except.ok.injEq] at h
       subst h
       intro p hp
       first
         | (simp only [Option.some.injEq] at hp
            rw [← hp])
         | simp at hp)

/-- C6 (amended): the combined document body holds, in order, the RESUME
section, the page-break marker, then the COVER LETTER section — the three
`insertText` requests all target index 1, so the last-inserted resume
section ends up first, reversing the order the claim states; updates
rebuild the same prefix; and when no new resume text was generated the
resume slot falls back to the unmodified original resume text, so the
document is never left without a resume. -/
theorem combined_doc_resume_first_with_resume_fallback
    (resume cover prev : String) (ext : Externals) (cfg : DriveConfig)
    (company gid gurl cover2 rc : String)
    (res : String × String × Option (String × String) × String) :
    create_google_doc_body resume cover =
      "RESUME\n\n" ++ resume ++ "\n--- PAGE BREAK ---\n\n" ++
        ("COVER LETTER\n\n" ++ cover ++ "\n\n") ∧
    (∃ rest : List Char, (update_google_doc_body prev resume cover).toList =
      ("RESUME\n\n" ++ resume ++ "\n--- PAGE BREAK ---\n\n" ++
        ("COVER LETTER\n\n" ++ cover ++ "\n\n")).toList ++ rest) ∧
    (docUpsert ext cfg company gid gurl "" cover2 rc = .ok res →
      ∀ p, res.2.2.1 = some p → p.1 = rc) := by
  refine ⟨?_, ?_, docUpsert_fallback ext cfg company gid gurl cover2 rc res⟩
  · apply String.ext
    simp [create_google_doc_body, applyDocRequests, sectionInsertRequests,
      applyDocRequest, String.toList, String.data_append, List.append_assoc]
  · unfold update_google_doc_body applyDocRequests
    split
    · refine ⟨(prev.toList.take 0 ++ prev.toList.drop (prev.length + 1 - 1 - 1)), ?_⟩
      simp [sectionInsertRequests, applyDocRequest, String.toList,
        String.data_append, List.append_assoc]
    · refine ⟨prev.toList, ?_⟩
      simp [sectionInsertRequests, applyDocRequest, String.toList,
        String.data_append, List.append_assoc]

/-- Counterexample for C6 as stated: the created body does not start with
the cover-letter section; it starts with the RESUME section. -/
theorem doc_body_not_cover_letter_first :
    create_google_doc_body "R" "C" ≠ specCoverFirstBody "R" "C" ∧
    ("RESUME".toList.isPrefixOf (create_google_doc_body "R" "C").toList) = true ∧
    ("COVER LETTER".toList.isPrefixOf (create_google_doc_body "R" "C").toList) = false := by
  exact ⟨by decide, by decide, by decide⟩

/-- Witness for C6 at concrete section texts. -/
theorem combined_doc_resume_first_witness :
    create_google_doc_body "R" "C" =
      "RESUME\n\n" ++ "R" ++ "\n--- PAGE BREAK ---\n\n" ++
        ("COVER LETTER\n\n" ++ "C" ++ "\n\n") ∧
    ("RC", "C").1 = "RC" := by
  have h := combined_doc_resume_first_with_resume_fallback "R" "C" "p" oracleHappy {}
    "A" "" "" "C" "RC" ("D1", "U1", some ("RC", "C"), "RC")
  exact ⟨h.1, h.2.2 rfl ("RC", "C") rfl⟩

end JobHunt
